import Mathlib

/-!
Shallow embedding of `app/services/embedding.py` (yt-rag): the AI provider
abstraction for embeddings and chat completions.

Modelling conventions:
* Exceptions are modelled by `Except String`, the `String` being the text
  `str(e)` of the raised Python exception.
* Remote vendor calls are modelled by oracle functions passed as arguments;
  the request records mirror the keyword arguments of the vendor SDK calls
  and the response records mirror the attributes the code reads back.
* Embedding vectors are kept abstract in a type parameter `Vec` (the code
  never inspects them).
* `logger` calls are side-effect free and are dropped.
-/

/-- The settings object returned by `get_settings()`, restricted to the
fields this module reads. `temperature` is kept as a rational. -/
structure Settings where
  ai_provider : String
  openai_api_key : String
  anthropic_api_key : String
  openai_embed_model : String
  openai_chat_model : String
  anthropic_chat_model : String
  temperature : Rat

/-- An `openai.OpenAI(api_key=...)` client handle, identified by the key it
was constructed with. -/
structure OpenAIClient where
  api_key : String

/-- An `anthropic.Anthropic(api_key=...)` client handle. -/
structure AnthropicClient where
  api_key : String

/-- `str(e)` of the `IndexError` raised by indexing an empty Python list. -/
def indexErrorMsg : String := "list index out of range"

/-- The request of `openai_client.embeddings.create(model=..., input=...)`. -/
structure EmbedRequest where
  model : String
  input : List String

/-- One element of `response.data`: carries an `.embedding` attribute. -/
structure EmbedItem (Vec : Type) where
  embedding : Vec

/-- The response of the embeddings endpoint: a `.data` list. -/
structure EmbedResponse (Vec : Type) where
  data : List (EmbedItem Vec)

/-- `EmbeddingService.__init__`: binds an OpenAI client with the OpenAI API
key and the configured OpenAI embedding model, unconditionally. -/
structure EmbeddingService where
  openai_client : OpenAIClient
  embed_model : String

def EmbeddingService.init (s : Settings) : EmbeddingService :=
  { openai_client := { api_key := s.openai_api_key }
    embed_model := s.openai_embed_model }

/-- `EmbeddingService.embed_texts`: one batched call to the embedding
vendor; on success returns `[item.embedding for item in response.data]`,
on failure logs and re-raises the same exception (`raise`). -/
def EmbeddingService.embed_texts {Vec : Type} (svc : EmbeddingService)
    (vendor : EmbedRequest → Except String (EmbedResponse Vec))
    (texts : List String) : Except String (List Vec) :=
  match vendor { model := svc.embed_model, input := texts } with
  | .ok response => .ok (response.data.map (fun item => item.embedding))
  | .error e => .error e

/-- `EmbeddingService.embed_query`: `(await self.embed_texts([query]))[0]`.
Indexing `[0]` on an empty result raises an `IndexError`. -/
def EmbeddingService.embed_query {Vec : Type} (svc : EmbeddingService)
    (vendor : EmbedRequest → Except String (EmbedResponse Vec))
    (query : String) : Except String Vec :=
  match svc.embed_texts vendor [query] with
  | .error e => .error e
  | .ok embeddings =>
    match embeddings with
    | [] => .error indexErrorMsg
    | v :: _ => .ok v

/-- The client bound by `ChatService.__init__`: exactly one of the two
vendor clients. -/
inductive ChatClient where
  | openaiC (c : OpenAIClient)
  | anthropicC (c : AnthropicClient)

/-- `ChatService` instance state after `__init__`. -/
structure ChatService where
  provider : String
  client : ChatClient
  model : String

/-- `ChatService.__init__`: dispatch on `settings.ai_provider`; any value
other than "openai" or "anthropic" raises
`ValueError(f"Unsupported AI provider: {self.provider}")`. -/
def ChatService.init (s : Settings) : Except String ChatService :=
  if s.ai_provider = "openai" then
    .ok { provider := s.ai_provider
          client := .openaiC { api_key := s.openai_api_key }
          model := s.openai_chat_model }
  else if s.ai_provider = "anthropic" then
    .ok { provider := s.ai_provider
          client := .anthropicC { api_key := s.anthropic_api_key }
          model := s.anthropic_chat_model }
  else
    .error ("Unsupported AI provider: " ++ s.ai_provider)

/-- A context block dict, restricted to the two keys the code reads;
`none` models an absent key. -/
structure ContextBlock where
  chunk_id : Option String
  text : Option String

/-- One iteration of the context loop:
`f"[{block.get('chunk_id', 'unknown')}] {block.get('text', '')}"`. -/
def renderBlock (block : ContextBlock) : String :=
  "[" ++ block.chunk_id.getD "unknown" ++ "] " ++ block.text.getD ""

/-- Python `sep.join(parts)`. -/
def strJoin (sep : String) : List String → String
  | [] => ""
  | [a] => a
  | a :: b :: rest => a ++ sep ++ strJoin sep (b :: rest)

/-- `context = "\n\n".join(context_parts)`. -/
def buildContext (context_blocks : List ContextBlock) : String :=
  strJoin "\n\n" (context_blocks.map renderBlock)

/-- The fixed system instruction string of `generate_answer`. -/
def system_prompt : String :=
  "You are a helpful AI assistant for customer support that answers questions based on provided context.\n\nIMPORTANT RULES:\n1. For questions about policies, returns, shipping, sizing, or support: Answer ONLY using the provided context and include citations\n2. For general greetings or casual conversation: You can respond naturally and friendly\n3. For questions outside your knowledge base: Politely redirect to relevant policies or suggest contacting support\n4. Always include citations [chunk_id] when using context information\n5. Be concise but comprehensive\n6. Maintain a helpful, professional tone"

/-- The user-turn f-string of `generate_answer`. -/
def user_prompt (query : String) (context_blocks : List ContextBlock) : String :=
  "Context:\n" ++ buildContext context_blocks ++ "\n\nQuestion: " ++ query ++
    "\n\nPlease provide an answer based on the context above, including appropriate citations."

/-- One entry of a `messages` list: a role/content dict. -/
structure ChatMessage where
  role : String
  content : String

/-- The keyword arguments of `client.chat.completions.create(...)`. -/
structure OpenAIChatRequest where
  model : String
  messages : List ChatMessage
  temperature : Rat
  max_tokens : Nat

/-- `choice.message`, whose `.content` is `Optional[str]`. -/
structure OpenAIChoiceMessage where
  content : Option String

/-- One element of `response.choices`. -/
structure OpenAIChoice where
  message : OpenAIChoiceMessage

/-- The chat-completions response: a `.choices` list. -/
structure OpenAIChatResponse where
  choices : List OpenAIChoice

/-- The keyword arguments of `client.messages.create(...)`; note `system`
is a distinct parameter, not a message. -/
structure AnthropicRequest where
  model : String
  max_tokens : Nat
  temperature : Rat
  system : String
  messages : List ChatMessage

/-- One element of an Anthropic response `.content` list. -/
structure AnthropicContentBlock where
  text : String

/-- The Anthropic messages response: a `.content` list. -/
structure AnthropicResponse where
  content : List AnthropicContentBlock

/-- The request the openai branch of `generate_answer` issues. -/
def openaiChatRequest (svc : ChatService) (temperature : Rat)
    (query : String) (context_blocks : List ContextBlock) : OpenAIChatRequest :=
  { model := svc.model
    messages := [ { role := "system", content := system_prompt }
                , { role := "user", content := user_prompt query context_blocks } ]
    temperature := temperature
    max_tokens := 1000 }

/-- The request the anthropic branch of `generate_answer` issues. -/
def anthropicChatRequest (svc : ChatService) (temperature : Rat)
    (query : String) (context_blocks : List ContextBlock) : AnthropicRequest :=
  { model := svc.model
    max_tokens := 1000
    temperature := temperature
    system := system_prompt
    messages := [ { role := "user", content := user_prompt query context_blocks } ] }

/-- Python `answer or fallback` where `answer : Optional[str]`:
`None` and the empty string are falsy. -/
def orElseStr (answer : Option String) (fallback : String) : String :=
  match answer with
  | none => fallback
  | some s => if s = "" then fallback else s

/-- The fixed fallback of `return answer or "I couldn\x27t generate an answer."`. -/
def fallbackAnswer : String := "I couldn\x27t generate an answer."

/-- The template of the except branch:
`f"I encountered an error while processing your question: {str(e)}"`. -/
def errorAnswerPre : String := "I encountered an error while processing your question: "

/-- `str(e)` of the `UnboundLocalError` raised by `return answer` when
neither provider branch ran (unreachable for a constructed `ChatService`). -/
def unboundLocalMsg : String := "local variable \x27answer\x27 referenced before assignment"

/-- The body of the try block of `generate_answer`: provider dispatch,
vendor call, answer extraction, and the `answer or fallback` coercion. -/
def ChatService.answerAttempt (svc : ChatService) (s : Settings)
    (openaiVendor : OpenAIChatRequest → Except String OpenAIChatResponse)
    (anthropicVendor : AnthropicRequest → Except String AnthropicResponse)
    (query : String) (context_blocks : List ContextBlock) : Except String String :=
  if svc.provider = "openai" then
    match openaiVendor (openaiChatRequest svc s.temperature query context_blocks) with
    | .error e => .error e
    | .ok response =>
      match response.choices with
      | [] => .error indexErrorMsg
      | choice :: _ => .ok (orElseStr choice.message.content fallbackAnswer)
  else if svc.provider = "anthropic" then
    match anthropicVendor (anthropicChatRequest svc s.temperature query context_blocks) with
    | .error e => .error e
    | .ok response =>
      match response.content with
      | [] => .error indexErrorMsg
      | block :: _ => .ok (orElseStr (some block.text) fallbackAnswer)
  else
    .error unboundLocalMsg

/-- `ChatService.generate_answer`: the try/except wrapper — any exception
inside the try block becomes the templated error answer string. -/
def ChatService.generate_answer (svc : ChatService) (s : Settings)
    (openaiVendor : OpenAIChatRequest → Except String OpenAIChatResponse)
    (anthropicVendor : AnthropicRequest → Except String AnthropicResponse)
    (query : String) (context_blocks : List ContextBlock) : String :=
  match svc.answerAttempt s openaiVendor anthropicVendor query context_blocks with
  | .ok answer => answer
  | .error e => errorAnswerPre ++ e

/-- C1: any exception raised inside the try block of `generate_answer`
(the remote vendor call and answer extraction; prompt construction is a
total computation in this model) is caught and converted into the string
`"I encountered an error while processing your question: "` followed by
the exception text. `generate_answer` is a total function into `String`,
so no exception escapes to the caller. -/
theorem generate_answer_catches_all (svc : ChatService) (s : Settings)
    (ov : OpenAIChatRequest → Except String OpenAIChatResponse)
    (av : AnthropicRequest → Except String AnthropicResponse)
    (query : String) (blocks : List ContextBlock) (e : String)
    (h : svc.answerAttempt s ov av query blocks = .error e) :
    svc.generate_answer s ov av query blocks = errorAnswerPre ++ e := by
  unfold ChatService.generate_answer
  rw [h]

theorem generate_answer_catches_all_witness :
    ChatService.generate_answer
      { provider := "openai", client := .openaiC { api_key := "k" }, model := "m" }
      { ai_provider := "openai", openai_api_key := "k", anthropic_api_key := "a"
        openai_embed_model := "em", openai_chat_model := "m"
        anthropic_chat_model := "am", temperature := 0 }
      (fun _ => .error ("boom")) (fun _ => .error ("other")) ("Q") []
      = errorAnswerPre ++ "boom" :=
  generate_answer_catches_all _ _ _ _ _ _ _ rfl

/-- C2: the context is rendered one line `[chunk_id] text` per block, in
input order, joined with exactly one `"\n\n"` between consecutive lines;
the empty block list renders as the empty string; and the user prompt is
the context section, a blank line, then `Question: <query>`, then the
closing instruction. -/
theorem context_rendering (q : String) (b x : ContextBlock)
    (rest blocks : List ContextBlock) :
    buildContext [] = ""
    ∧ buildContext [b] = renderBlock b
    ∧ buildContext (b :: x :: rest) = renderBlock b ++ "\n\n" ++ buildContext (x :: rest)
    ∧ user_prompt q blocks =
        "Context:\n" ++ buildContext blocks ++ "\n\nQuestion: " ++ q ++
          "\n\nPlease provide an answer based on the context above, including appropriate citations." :=
  ⟨rfl, rfl, rfl, rfl⟩

/-- C3: if the vendor honors the wire contract — one embedding per input
text, in submitted order, described by an arbitrary vendor embedding
function `f` — then `embed_texts` returns exactly one vector per input in
order, and the empty input yields the empty output. -/
theorem embed_texts_order_preserving {Vec : Type} (svc : EmbeddingService)
    (vendor : EmbedRequest → Except String (EmbedResponse Vec))
    (f : String → Vec) (texts : List String)
    (h : vendor { model := svc.embed_model, input := texts } =
          .ok { data := texts.map (fun t => { embedding := f t }) }) :
    svc.embed_texts vendor texts = .ok (texts.map f)
    ∧ (texts.map f).length = texts.length
    ∧ (∀ i (hi : i < texts.length) (hj : i < (texts.map f).length),
        (texts.map f).get ⟨i, hj⟩ = f (texts.get ⟨i, hi⟩))
    ∧ (texts = [] → svc.embed_texts vendor texts = .ok ([] : List Vec)) := by
  have hmain : svc.embed_texts vendor texts = .ok (texts.map f) := by
    unfold EmbeddingService.embed_texts
    rw [h]
    simp [List.map_map, Function.comp]
  refine ⟨hmain, by simp, ?_, ?_⟩
  · intro i hi hj
    simp [List.get_eq_getElem, List.getElem_map]
  · intro hE
    subst hE
    simpa using hmain

theorem embed_texts_order_preserving_witness :
    EmbeddingService.embed_texts
      { openai_client := { api_key := "k" }, embed_model := "e" }
      (fun req => .ok { data := req.input.map (fun t => { embedding := t.length }) })
      ["ab", "c"] = .ok [2, 1] :=
  (embed_texts_order_preserving _ _ String.length _ rfl).1

/-- C4: constructing the chat service with a provider that is neither
"openai" nor "anthropic" fails with a `ValueError` whose message names the
unsupported value; construction is pure here, so no remote call happens,
and no default provider is chosen. -/
theorem init_unsupported_provider (s : Settings)
    (h1 : s.ai_provider ≠ "openai") (h2 : s.ai_provider ≠ "anthropic") :
    ChatService.init s = .error ("Unsupported AI provider: " ++ s.ai_provider) := by
  unfold ChatService.init
  rw [if_neg h1, if_neg h2]

theorem init_unsupported_provider_witness :
    ChatService.init
      { ai_provider := "cohere", openai_api_key := "ok", anthropic_api_key := "ak"
        openai_embed_model := "em", openai_chat_model := "cm"
        anthropic_chat_model := "am", temperature := 0 }
      = .error ("Unsupported AI provider: " ++ "cohere") :=
  init_unsupported_provider _ (by decide) (by decide)

/-- C5: when the vendor call succeeds but the extracted answer is absent
(`None`) or empty, `generate_answer` returns exactly the fixed fallback
string `"I couldn\x27t generate an answer."`, for both provider branches. -/
theorem empty_answer_fallback (svc : ChatService) (s : Settings)
    (ov : OpenAIChatRequest → Except String OpenAIChatResponse)
    (av : AnthropicRequest → Except String AnthropicResponse)
    (q : String) (blocks : List ContextBlock) :
    (∀ c cs, svc.provider = "openai" →
      ov (openaiChatRequest svc s.temperature q blocks) = .ok { choices := c :: cs } →
      (c.message.content = none ∨ c.message.content = some "") →
      svc.generate_answer s ov av q blocks = fallbackAnswer)
    ∧ (∀ t bs, svc.provider = "anthropic" →
      av (anthropicChatRequest svc s.temperature q blocks) = .ok { content := t :: bs } →
      t.text = "" →
      svc.generate_answer s ov av q blocks = fallbackAnswer) := by
  constructor
  · intro c cs hp hv hc
    rcases hc with hc | hc <;>
      simp [ChatService.generate_answer, ChatService.answerAttempt, hp, hv, orElseStr, hc]
  · intro t bs hp hv ht
    simp [ChatService.generate_answer, ChatService.answerAttempt, hp, hv, orElseStr, ht]

theorem empty_answer_fallback_witness :
    ChatService.generate_answer
      { provider := "openai", client := .openaiC { api_key := "k" }, model := "m" }
      { ai_provider := "openai", openai_api_key := "k", anthropic_api_key := "a"
        openai_embed_model := "em", openai_chat_model := "m"
        anthropic_chat_model := "am", temperature := 0 }
      (fun _ => .ok { choices := [ { message := { content := some "" } } ] })
      (fun _ => .error ("unused")) ("Q") []
      = fallbackAnswer :=
  (empty_answer_fallback _ _ _ _ _ _).1 _ [] rfl rfl (Or.inr rfl)

/-- C6: a context block missing `chunk_id` renders with the literal
placeholder "unknown" as identifier; one missing `text` renders with the
empty string as text portion; `renderBlock` is total, so neither missing
field is an error. -/
theorem missing_fields_defaults (cid txt : String) :
    renderBlock { chunk_id := none, text := some txt } = "[unknown] " ++ txt
    ∧ renderBlock { chunk_id := some cid, text := none } = "[" ++ cid ++ "] "
    ∧ renderBlock { chunk_id := none, text := none } = "[unknown] " := by
  refine ⟨rfl, ?_, rfl⟩
  simp [renderBlock]

/-- C7: `embed_query x` agrees with `embed_texts [x]` followed by Python
indexing `[0]`: the same value on success, the same exception on failure,
and the `IndexError` of `[0]` when the vendor returns no embeddings. -/
theorem embed_query_single {Vec : Type} (svc : EmbeddingService)
    (vendor : EmbedRequest → Except String (EmbedResponse Vec)) (x : String) :
    (∀ e, svc.embed_texts vendor [x] = .error e → svc.embed_query vendor x = .error e)
    ∧ (∀ v vs, svc.embed_texts vendor [x] = .ok (v :: vs) → svc.embed_query vendor x = .ok v)
    ∧ (svc.embed_texts vendor [x] = .ok [] → svc.embed_query vendor x = .error indexErrorMsg) := by
  refine ⟨fun e h => ?_, fun v vs h => ?_, fun h => ?_⟩ <;>
    simp [EmbeddingService.embed_query, h]

theorem embed_query_single_witness :
    EmbeddingService.embed_query
      { openai_client := { api_key := "k" }, embed_model := "e" }
      (fun req => .ok { data := req.input.map (fun t => { embedding := t.length }) })
      ("ab") = .ok 2 :=
  (embed_query_single _ _ _).2.1 2 [] rfl

/-- C8: on any vendor failure, `embed_texts` re-raises the same exception
text unchanged — no masking, a single attempt with no retry, and no
fallback vector. -/
theorem embed_texts_propagates_error {Vec : Type} (svc : EmbeddingService)
    (vendor : EmbedRequest → Except String (EmbedResponse Vec))
    (texts : List String) (e : String)
    (h : vendor { model := svc.embed_model, input := texts } = .error e) :
    svc.embed_texts vendor texts = .error e := by
  unfold EmbeddingService.embed_texts
  rw [h]

theorem embed_texts_propagates_error_witness :
    EmbeddingService.embed_texts
      { openai_client := { api_key := "k" }, embed_model := "e" }
      (fun _ => (.error ("network down") : Except String (EmbedResponse Nat)))
      ["a"] = .error ("network down") :=
  embed_texts_propagates_error _ _ _ _ rfl

/-- C9: the vendor request is keyed by the bound provider: the openai
branch sends a system-role then a user-role message with the bound model,
the configured temperature and max output 1000 and extracts the first
choice message content; the anthropic branch passes the system
instruction as a distinct `system` parameter with a single user-role
message, same model, temperature and max output 1000, and extracts the
first content block text; each branch consults only its own vendor. -/
theorem provider_dispatch (svc : ChatService) (s : Settings)
    (ov : OpenAIChatRequest → Except String OpenAIChatResponse)
    (av : AnthropicRequest → Except String AnthropicResponse)
    (q : String) (blocks : List ContextBlock) :
    openaiChatRequest svc s.temperature q blocks =
      { model := svc.model
        messages := [ { role := "system", content := system_prompt }
                    , { role := "user", content := user_prompt q blocks } ]
        temperature := s.temperature
        max_tokens := 1000 }
    ∧ anthropicChatRequest svc s.temperature q blocks =
      { model := svc.model, max_tokens := 1000, temperature := s.temperature
        system := system_prompt
        messages := [ { role := "user", content := user_prompt q blocks } ] }
    ∧ (∀ a cs, svc.provider = "openai" →
        ov (openaiChatRequest svc s.temperature q blocks) =
          .ok { choices := { message := { content := some a } } :: cs } →
        a ≠ "" → svc.generate_answer s ov av q blocks = a)
    ∧ (∀ a bs, svc.provider = "anthropic" →
        av (anthropicChatRequest svc s.temperature q blocks) =
          .ok { content := { text := a } :: bs } →
        a ≠ "" → svc.generate_answer s ov av q blocks = a)
    ∧ (svc.provider = "openai" → ∀ av',
        svc.generate_answer s ov av q blocks = svc.generate_answer s ov av' q blocks)
    ∧ (svc.provider = "anthropic" → ∀ ov',
        svc.generate_answer s ov' av q blocks = svc.generate_answer s ov av q blocks) := by
  refine ⟨rfl, rfl, ?_, ?_, ?_, ?_⟩
  · intro a cs hp hv ha
    simp [ChatService.generate_answer, ChatService.answerAttempt, hp, hv, orElseStr, ha]
  · intro a bs hp hv ha
    simp [ChatService.generate_answer, ChatService.answerAttempt, hp, hv, orElseStr, ha]
  · intro hp av'
    simp [ChatService.generate_answer, ChatService.answerAttempt, hp]
  · intro hp ov'
    simp [ChatService.generate_answer, ChatService.answerAttempt, hp]

theorem provider_dispatch_witness :
    ChatService.generate_answer
      { provider := "anthropic", client := .anthropicC { api_key := "k" }, model := "m" }
      { ai_provider := "anthropic", openai_api_key := "ok", anthropic_api_key := "k"
        openai_embed_model := "em", openai_chat_model := "cm"
        anthropic_chat_model := "m", temperature := 1 }
      (fun _ => .error ("unused"))
      (fun _ => .ok { content := [ { text := "Hi [a]" } ] }) ("Q") []
      = "Hi [a]" :=
  (provider_dispatch _ _ _ _ _ _).2.2.2.1 _ [] rfl rfl (by decide)

/-- C10: the embedding service always binds the OpenAI client with the
OpenAI API key and the OpenAI embedding model, whatever `ai_provider` is
(including "anthropic"); `ai_provider` never influences the embedding
path. -/
theorem embedding_always_openai (s : Settings) (p : String) :
    (EmbeddingService.init s).openai_client = { api_key := s.openai_api_key }
    ∧ (EmbeddingService.init s).embed_model = s.openai_embed_model
    ∧ EmbeddingService.init { s with ai_provider := p } = EmbeddingService.init s
    ∧ EmbeddingService.init { s with ai_provider := "anthropic" } = EmbeddingService.init s :=
  ⟨rfl, rfl, rfl, rfl⟩
